import Mathlib

/-!
Verification of the order status transition authority of this repository.

The repository contains four implementations of the status-transition
operation:

* `serve` — the Supabase edge function in
  `supabase/functions/update-order-status/index.ts`;
* `update_order_status_v1` — the first stored-procedure revision in the
  unnamed migration (permission checks, milestone CASE expressions, row
  count checks);
* `update_order_status_v2` — the second stored-procedure revision in the
  unnamed migration (distinguishes FORBIDDEN from NOT_ALLOWED_FOR_USER,
  conditional cancel write without a row count check);
* `update_order_status_crimson` — the procedure of migration
  `20250811111146_crimson_salad.sql` (status validation, milestone CASE
  expressions, no permission checks).

All four are embedded over a single-order store (`Option Order`), which is
faithful for every claim considered, since each claim concerns a single
order row.  Time is passed explicitly as a natural number `now`; statuses
are strings as in the source.
-/

/-- An order row, with the columns the transition logic reads or writes.
Milestone dates are nullable timestamps (`Option Nat`). -/
structure Order where
  id : String
  user_id : String
  status : String
  processing_date : Option Nat
  shipped_date : Option Nat
  delivered_date : Option Nat
  updated_at : Nat
deriving Repr, DecidableEq

/-- The error kinds surfaced by the implementations.  The edge function
returns the upper-case JSON codes; the stored procedures raise exceptions,
mapped here to the constructor matching their message. -/
inductive ErrKind where
  | missingParams
  | unauthenticated
  | orderNotFound
  | forbidden
  | notAllowedForUser
  | invalidStatus
  | updateFailed
  | permissionDenied
  | cannotCancel
deriving Repr, DecidableEq

instance : DecidableEq (Except ErrKind Unit) := fun a b =>
  match a, b with
  | Except.ok (), Except.ok () => isTrue rfl
  | Except.error x, Except.error y =>
    if h : x = y then isTrue (h ▸ rfl)
    else isFalse fun hc => h (by injection hc)
  | Except.ok (), Except.error _ => isFalse fun hc => Except.noConfusion hc
  | Except.error _, Except.ok () => isFalse fun hc => Except.noConfusion hc

/-- Result of one call: the response sent to the caller and the store
afterwards. -/
structure Outcome where
  response : Except ErrKind Unit
  store : Option Order
deriving Repr, DecidableEq

/-- The closed status enumeration, as validated by the crimson_salad
procedure. -/
def validStatuses : List String :=
  ["pending", "processing", "shipped", "delivered", "cancelled"]

/-- Fetch of the order row by id (`.eq('id', orderId)` / `WHERE id =
p_order_id`) over the single-order store. -/
def lookupOrder (store : Option Order) (orderId : String) : Option Order :=
  match store with
  | none => none
  | some o => if o.id = orderId then some o else none

/-- The edge function `serve` of
`supabase/functions/update-order-status/index.ts`, after authentication:
`userId` is the resolved caller, `roleRow` tells whether the `user_roles`
query returned an admin row and `roleErr` whether it returned an error
(`isAdmin = !!role && !roleErr`).  Missing parameters are the empty
string, matching JavaScript falsiness of `""`.  The update statement
writes only `status` and has no status predicate. -/
def serve (userId : String) (roleRow roleErr : Bool)
    (store : Option Order) (orderId newStatus : String) : Outcome :=
  if orderId = "" ∨ newStatus = "" then
    ⟨Except.error ErrKind.missingParams, store⟩
  else
    let isAdmin : Bool := roleRow && !roleErr
    match lookupOrder store orderId with
    | none => ⟨Except.error ErrKind.orderNotFound, store⟩
    | some o =>
      if isAdmin = false then
        if newStatus = "cancelled" ∧ o.user_id = userId ∧
            (o.status = "pending" ∨ o.status = "processing") then
          ⟨Except.ok (), some { o with status := newStatus }⟩
        else
          ⟨Except.error ErrKind.forbidden, some o⟩
      else
        ⟨Except.ok (), some { o with status := newStatus }⟩

/-- The decision a stored-procedure revision reaches from its snapshot of
the order, before the write is attempted. -/
inductive Decision where
  | adminWrite (newStatus : String)
  | cancelWrite
  | fail (e : ErrKind)
deriving Repr, DecidableEq

/-- Revision 1 decision logic: admins may write anything; otherwise the
owner may cancel a pending or processing order; every other case raises
the single exception `Permission denied - you can only cancel your own
pending or processing orders`. -/
def v1_decide (callerId : String) (isAdmin : Bool) (o : Order)
    (p_new_status : String) : Decision :=
  if isAdmin then Decision.adminWrite p_new_status
  else if o.user_id = callerId ∧ p_new_status = "cancelled" ∧
      (o.status = "pending" ∨ o.status = "processing") then
    Decision.cancelWrite
  else
    Decision.fail ErrKind.permissionDenied

/-- Revision 1 admin write: sets the status, refreshes `updated_at`, and
sets each milestone date via `CASE WHEN p_new_status = ... AND the date IS
NULL THEN now() ELSE the date END`. -/
def v1_adminWrite (o : Order) (s : String) (now : Nat) : Order :=
  { o with
    status := s
    updated_at := now
    processing_date :=
      if s = "processing" ∧ o.processing_date = none then some now
      else o.processing_date
    shipped_date :=
      if s = "shipped" ∧ o.shipped_date = none then some now
      else o.shipped_date
    delivered_date :=
      if s = "delivered" ∧ o.delivered_date = none then some now
      else o.delivered_date }

/-- Revision 1 cancel write: `UPDATE ... SET status = 'cancelled',
updated_at = now() WHERE ... AND status IN ('pending','processing')`,
followed by `GET DIAGNOSTICS`; zero affected rows raises `Cannot cancel
order - order may have already been processed`. -/
def v1_cancelApply (o : Order) (now : Nat) : Except ErrKind Unit × Order :=
  if o.status = "pending" ∨ o.status = "processing" then
    (Except.ok (), { o with status := "cancelled", updated_at := now })
  else
    (Except.error ErrKind.cannotCancel, o)

/-- Revision 1 write phase, applied to the row state at write time. -/
def v1_apply (o : Order) (d : Decision) (now : Nat) :
    Except ErrKind Unit × Order :=
  match d with
  | Decision.adminWrite s => (Except.ok (), v1_adminWrite o s now)
  | Decision.cancelWrite => v1_cancelApply o now
  | Decision.fail e => (Except.error e, o)

/-- Revision 1 of `update_order_status` in the unnamed migration: checks
authentication, resolves admin role, reads the order, decides, writes.
In a single sequential call the row at write time is the snapshot. -/
def update_order_status_v1 (callerId : Option String) (isAdmin : Bool)
    (store : Option Order) (p_order_id p_new_status : String)
    (now : Nat) : Outcome :=
  match callerId with
  | none => ⟨Except.error ErrKind.unauthenticated, store⟩
  | some uid =>
    match lookupOrder store p_order_id with
    | none => ⟨Except.error ErrKind.orderNotFound, store⟩
    | some o =>
      let r := v1_apply o (v1_decide uid isAdmin o p_new_status) now
      ⟨r.1, some r.2⟩

/-- Revision 2 decision logic: admins may write anything; the owner may
cancel a pending or processing order; the owner requesting anything else
raises NOT_ALLOWED_FOR_USER; a non-owner raises FORBIDDEN. -/
def v2_decide (callerId : String) (isAdmin : Bool) (o : Order)
    (p_new_status : String) : Decision :=
  if isAdmin then Decision.adminWrite p_new_status
  else if o.user_id = callerId then
    if p_new_status = "cancelled" ∧
        (o.status = "pending" ∨ o.status = "processing") then
      Decision.cancelWrite
    else
      Decision.fail ErrKind.notAllowedForUser
  else
    Decision.fail ErrKind.forbidden

/-- Revision 2 cancel write: `UPDATE ... SET status = 'cancelled' WHERE
id = p_order_id AND status IN ('pending','processing')` and then
`RETURN true` — there is no row count check, so the call reports success
even when the conditional write affected zero rows. -/
def v2_cancelApply (o : Order) : Except ErrKind Unit × Order :=
  if o.status = "pending" ∨ o.status = "processing" then
    (Except.ok (), { o with status := "cancelled" })
  else
    (Except.ok (), o)

/-- Revision 2 write phase, applied to the row state at write time.  The
admin branch writes only the status column. -/
def v2_apply (o : Order) (d : Decision) : Except ErrKind Unit × Order :=
  match d with
  | Decision.adminWrite s => (Except.ok (), { o with status := s })
  | Decision.cancelWrite => v2_cancelApply o
  | Decision.fail e => (Except.error e, o)

/-- Revision 2 of `update_order_status` in the unnamed migration. -/
def update_order_status_v2 (callerId : String) (isAdmin : Bool)
    (store : Option Order) (p_order_id p_new_status : String) : Outcome :=
  match lookupOrder store p_order_id with
  | none => ⟨Except.error ErrKind.orderNotFound, store⟩
  | some o =>
    let r := v2_apply o (v2_decide callerId isAdmin o p_new_status)
    ⟨r.1, some r.2⟩

/-- `update_order_status` of migration `20250811111146_crimson_salad.sql`:
validates the status against the closed enumeration, then updates status,
`updated_at` and the milestone dates (CASE WHEN ... IS NULL THEN now())
with no permission check. -/
def update_order_status_crimson (store : Option Order)
    (p_order_id p_new_status : String) (now : Nat) : Outcome :=
  if p_new_status ∈ validStatuses then
    match lookupOrder store p_order_id with
    | none => ⟨Except.error ErrKind.orderNotFound, store⟩
    | some o =>
      ⟨Except.ok (), some
        { o with
          status := p_new_status
          updated_at := now
          processing_date :=
            if p_new_status = "processing" ∧ o.processing_date = none then
              some now
            else o.processing_date
          shipped_date :=
            if p_new_status = "shipped" ∧ o.shipped_date = none then
              some now
            else o.shipped_date
          delivered_date :=
            if p_new_status = "delivered" ∧ o.delivered_date = none then
              some now
            else o.delivered_date }⟩
  else
    ⟨Except.error ErrKind.invalidStatus, store⟩

/-- One transition request, through any of the four implementations. -/
inductive Op where
  | v1 (callerId : Option String) (isAdmin : Bool)
      (orderId newStatus : String) (now : Nat)
  | v2 (callerId : String) (isAdmin : Bool) (orderId newStatus : String)
  | crimson (orderId newStatus : String) (now : Nat)
  | edge (userId : String) (roleRow roleErr : Bool)
      (orderId newStatus : String)
deriving Repr, DecidableEq

/-- The store after one request. -/
def applyOp (store : Option Order) : Op → Option Order
  | Op.v1 c a oid ns now => (update_order_status_v1 c a store oid ns now).store
  | Op.v2 c a oid ns => (update_order_status_v2 c a store oid ns).store
  | Op.crimson oid ns now => (update_order_status_crimson store oid ns now).store
  | Op.edge u rr re oid ns => (serve u rr re store oid ns).store

/-- The store after a sequence of requests. -/
def execOps (store : Option Order) (l : List Op) : Option Order :=
  l.foldl applyOp store

/-- Status column of the order afterwards, when the store holds one. -/
def outStatus (r : Outcome) : Option String :=
  r.store.map Order.status

/-- Every milestone timestamp that is set in `o` is still set, with the
same value, in `o_next`. -/
def milestonesPreserved (o o_next : Order) : Prop :=
  (∀ t, o.processing_date = some t → o_next.processing_date = some t) ∧
  (∀ t, o.shipped_date = some t → o_next.shipped_date = some t) ∧
  (∀ t, o.delivered_date = some t → o_next.delivered_date = some t)

theorem milestonesPreserved_refl (o : Order) : milestonesPreserved o o :=
  ⟨fun _ ht => ht, fun _ ht => ht, fun _ ht => ht⟩

theorem milestonesPreserved_trans {o o₁ o₂ : Order}
    (h₁ : milestonesPreserved o o₁) (h₂ : milestonesPreserved o₁ o₂) :
    milestonesPreserved o o₂ :=
  ⟨fun t ht => h₂.1 t (h₁.1 t ht),
   fun t ht => h₂.2.1 t (h₁.2.1 t ht),
   fun t ht => h₂.2.2 t (h₁.2.2 t ht)⟩

/-- A request against an empty store leaves the store empty. -/
theorem applyOp_none (op : Op) : applyOp none op = none := by
  cases op with
  | v1 c a oid ns now =>
    cases c <;> simp [applyOp, update_order_status_v1, lookupOrder]
  | v2 c a oid ns => simp [applyOp, update_order_status_v2, lookupOrder]
  | crimson oid ns now =>
    simp only [applyOp, update_order_status_crimson, lookupOrder]
    split <;> rfl
  | edge u rr re oid ns =>
    simp only [applyOp, serve, lookupOrder]
    split <;> rfl

theorem execOps_cons (s : Option Order) (op : Op) (l : List Op) :
    execOps s (op :: l) = execOps (applyOp s op) l := rfl

theorem execOps_none (l : List Op) : execOps none l = none := by
  induction l with
  | nil => rfl
  | cons op rest ih => rw [execOps_cons, applyOp_none]; exact ih

/-- One request of any implementation never overwrites a set milestone
timestamp. -/
theorem applyOp_milestones (op : Op) (o o' : Order)
    (h : applyOp (some o) op = some o') : milestonesPreserved o o' := by
  refine ⟨?_, ?_, ?_⟩ <;> intro t ht <;>
    cases op <;>
      simp only [applyOp, update_order_status_v1, update_order_status_v2,
        update_order_status_crimson, serve, lookupOrder, v1_decide,
        v2_decide, v1_apply, v2_apply, v1_adminWrite, v1_cancelApply,
        v2_cancelApply] at h <;>
      (repeat' split at h) <;> simp_all <;> (subst h; rfl)

/-- Every member of the closed status enumeration is a nonempty string,
so a valid status never trips the edge function's missing-parameter
check. -/
theorem mem_validStatuses_ne_empty {s : String} (h : s ∈ validStatuses) :
    s ≠ "" := by
  simp only [validStatuses, List.mem_cons, List.mem_singleton] at h
  rcases h with h | h | h | h | h | h <;> first | (subst h; decide) | cases h

/-- Claim C10: in the serverless endpoint, a role-lookup error makes the
caller a non-admin: the outcome of any request with a role-lookup error
equals the outcome of the same request for a caller known not to hold the
admin role, so the failure can never grant admin privileges. -/
theorem C10_role_lookup_fails_closed (userId : String) (roleRow : Bool)
    (store : Option Order) (orderId newStatus : String) :
    serve userId roleRow true store orderId newStatus =
      serve userId false false store orderId newStatus := by
  simp [serve]

/-- Claim C5: for every existing order and every status of the closed
enumeration, an admin transition succeeds and leaves the order with the
requested status, regardless of its current status or owner — in the
edge function, in stored-procedure revision 1 and in revision 2. -/
theorem C5_admin_transition_succeeds (o : Order)
    (callerId orderId ns : String) (now : Nat)
    (hid : o.id = orderId) (hoid : orderId ≠ "") (hns : ns ∈ validStatuses) :
    ((serve callerId true false (some o) orderId ns).response =
        Except.ok () ∧
      outStatus (serve callerId true false (some o) orderId ns) = some ns) ∧
    ((update_order_status_v1 (some callerId) true (some o) orderId ns
        now).response = Except.ok () ∧
      outStatus (update_order_status_v1 (some callerId) true (some o)
        orderId ns now) = some ns) ∧
    ((update_order_status_v2 callerId true (some o) orderId ns).response =
        Except.ok () ∧
      outStatus (update_order_status_v2 callerId true (some o) orderId ns) =
        some ns) := by
  have hns' : ns ≠ "" := mem_validStatuses_ne_empty hns
  refine ⟨?_, ?_, ?_⟩
  · simp [serve, lookupOrder, hid, hoid, hns', outStatus]
  · simp [update_order_status_v1, lookupOrder, hid, v1_decide, v1_apply,
      v1_adminWrite, outStatus]
  · simp [update_order_status_v2, lookupOrder, hid, v2_decide, v2_apply,
      outStatus]

/-- Concrete pending order used by the C5 witness. -/
def orderO4 : Order := ⟨"o4", "u1", "pending", none, none, none, 0⟩

/-- Witness for C5 at a concrete order and status. -/
theorem C5_admin_transition_succeeds_witness :
    ((serve "a1" true false (some orderO4) "o4" "delivered").response =
        Except.ok () ∧
      outStatus (serve "a1" true false (some orderO4) "o4" "delivered") =
        some "delivered") ∧
    ((update_order_status_v1 (some "a1") true (some orderO4) "o4"
        "delivered" 7).response = Except.ok () ∧
      outStatus (update_order_status_v1 (some "a1") true (some orderO4)
        "o4" "delivered" 7) = some "delivered") ∧
    ((update_order_status_v2 "a1" true (some orderO4) "o4"
        "delivered").response = Except.ok () ∧
      outStatus (update_order_status_v2 "a1" true (some orderO4) "o4"
        "delivered") = some "delivered") :=
  C5_admin_transition_succeeds orderO4
    "a1" "o4" "delivered" 7 rfl (by decide) (by decide)

/-- Claim C6: an owner-initiated cancellation of a pending or processing
order succeeds in all three transition implementations, and the order's
status becomes cancelled. -/
theorem C6_owner_cancel_succeeds (o : Order) (uid orderId : String)
    (now : Nat) (hid : o.id = orderId) (hoid : orderId ≠ "")
    (hown : o.user_id = uid)
    (hst : o.status = "pending" ∨ o.status = "processing") :
    serve uid false false (some o) orderId "cancelled" =
      ⟨Except.ok (), some { o with status := "cancelled" }⟩ ∧
    update_order_status_v1 (some uid) false (some o) orderId "cancelled"
        now =
      ⟨Except.ok (),
        some { o with status := "cancelled", updated_at := now }⟩ ∧
    update_order_status_v2 uid false (some o) orderId "cancelled" =
      ⟨Except.ok (), some { o with status := "cancelled" }⟩ := by
  refine ⟨?_, ?_, ?_⟩
  · simp [serve, lookupOrder, hid, hoid, hown, hst]
  · simp [update_order_status_v1, lookupOrder, hid, v1_decide, v1_apply,
      v1_cancelApply, hown, hst]
  · simp [update_order_status_v2, lookupOrder, hid, v2_decide, v2_apply,
      v2_cancelApply, hown, hst]

/-- Concrete pending order used by the C6 witness. -/
def orderO1 : Order := ⟨"o1", "u1", "pending", none, none, none, 0⟩

/-- Witness for C6 on a concrete pending order cancelled by its owner. -/
theorem C6_owner_cancel_succeeds_witness :
    serve "u1" false false (some orderO1) "o1" "cancelled" =
      ⟨Except.ok (), some { orderO1 with status := "cancelled" }⟩ ∧
    update_order_status_v1 (some "u1") false (some orderO1) "o1"
        "cancelled" 9 =
      ⟨Except.ok (),
        some { orderO1 with status := "cancelled", updated_at := 9 }⟩ ∧
    update_order_status_v2 "u1" false (some orderO1) "o1" "cancelled" =
      ⟨Except.ok (), some { orderO1 with status := "cancelled" }⟩ :=
  C6_owner_cancel_succeeds orderO1
    "u1" "o1" 9 rfl (by decide) rfl (Or.inl rfl)

/-- Claim C1, counterexample: in the edge function the owner of a pending
order who requests a non-cancelling transition is refused with FORBIDDEN,
not NOT_ALLOWED_FOR_USER — the endpoint collapses the two error kinds. -/
theorem C1_endpoint_collapses_errors :
    (serve "u1" false false
        (some ⟨"o1", "u1", "pending", none, none, none, 0⟩)
        "o1" "shipped").response = Except.error ErrKind.forbidden ∧
    (serve "u1" false false
        (some ⟨"o1", "u1", "pending", none, none, none, 0⟩)
        "o1" "shipped").response ≠
      Except.error ErrKind.notAllowedForUser := by
  decide

/-- Claim C1 as amended: stored-procedure revision 2 distinguishes the
two error kinds for non-admin callers — a non-owner is refused with
FORBIDDEN, and the owner requesting anything other than cancelling a
pending or processing order is refused with NOT_ALLOWED_FOR_USER. -/
theorem C1_v2_distinguishes_errors (o : Order)
    (callerId orderId ns : String) (hid : o.id = orderId) :
    (o.user_id ≠ callerId →
      (update_order_status_v2 callerId false (some o) orderId ns).response
        = Except.error ErrKind.forbidden) ∧
    (o.user_id = callerId →
      ¬(ns = "cancelled" ∧
        (o.status = "pending" ∨ o.status = "processing")) →
      (update_order_status_v2 callerId false (some o) orderId ns).response
        = Except.error ErrKind.notAllowedForUser) := by
  constructor
  · intro hne
    simp [update_order_status_v2, lookupOrder, hid, v2_decide, v2_apply,
      hne]
  · intro hown hno
    simp [update_order_status_v2, lookupOrder, hid, v2_decide, v2_apply,
      hown, hno]

/-- Witness for the amended C1: a non-owner is refused with FORBIDDEN and
an owner requesting a late cancellation with NOT_ALLOWED_FOR_USER. -/
theorem C1_v2_distinguishes_errors_witness :
    ((update_order_status_v2 "u2" false
        (some ⟨"o1", "u1", "pending", none, none, none, 0⟩)
        "o1" "cancelled").response = Except.error ErrKind.forbidden) ∧
    ((update_order_status_v2 "u1" false
        (some ⟨"o2", "u1", "shipped", none, none, none, 0⟩)
        "o2" "cancelled").response =
      Except.error ErrKind.notAllowedForUser) :=
  ⟨(C1_v2_distinguishes_errors
      ⟨"o1", "u1", "pending", none, none, none, 0⟩ "u2" "o1" "cancelled"
      rfl).1 (by decide),
   (C1_v2_distinguishes_errors
      ⟨"o2", "u1", "shipped", none, none, none, 0⟩ "u1" "o2" "cancelled"
      rfl).2 rfl (by decide)⟩

/-- Claim C7, counterexample: the owner of a shipped order attempting to
cancel it through the edge function is refused with FORBIDDEN rather than
NOT_ALLOWED_FOR_USER (the order is left unchanged). -/
theorem C7_endpoint_reports_forbidden :
    serve "u1" false false
        (some ⟨"o2", "u1", "shipped", none, none, none, 0⟩)
        "o2" "cancelled" =
      ⟨Except.error ErrKind.forbidden,
        some ⟨"o2", "u1", "shipped", none, none, none, 0⟩⟩ ∧
    (serve "u1" false false
        (some ⟨"o2", "u1", "shipped", none, none, none, 0⟩)
        "o2" "cancelled").response ≠
      Except.error ErrKind.notAllowedForUser := by
  decide

/-- Claim C7 as amended: an owner's cancellation attempt on a shipped,
delivered or cancelled order fails and leaves the order unchanged in
every implementation; the error kind is NOT_ALLOWED_FOR_USER in
stored-procedure revision 2 but FORBIDDEN in the edge function. -/
theorem C7_owner_late_cancel_fails (o : Order) (uid orderId : String)
    (now : Nat) (hid : o.id = orderId) (hoid : orderId ≠ "")
    (hown : o.user_id = uid)
    (hst : o.status = "shipped" ∨ o.status = "delivered" ∨
      o.status = "cancelled") :
    update_order_status_v2 uid false (some o) orderId "cancelled" =
      ⟨Except.error ErrKind.notAllowedForUser, some o⟩ ∧
    serve uid false false (some o) orderId "cancelled" =
      ⟨Except.error ErrKind.forbidden, some o⟩ ∧
    update_order_status_v1 (some uid) false (some o) orderId "cancelled"
        now =
      ⟨Except.error ErrKind.permissionDenied, some o⟩ := by
  have hnp : ¬(o.status = "pending" ∨ o.status = "processing") := by
    rcases hst with h | h | h <;> rw [h] <;> decide
  refine ⟨?_, ?_, ?_⟩
  · simp [update_order_status_v2, lookupOrder, hid, v2_decide, v2_apply,
      hown, hnp]
  · simp [serve, lookupOrder, hid, hoid, hnp]
  · simp [update_order_status_v1, lookupOrder, hid, v1_decide, v1_apply,
      hnp]

/-- Concrete shipped order used by the C7 witness. -/
def orderO2 : Order := ⟨"o2", "u1", "shipped", none, none, none, 0⟩

/-- Witness for the amended C7 on a concrete shipped order. -/
theorem C7_owner_late_cancel_fails_witness :
    update_order_status_v2 "u1" false (some orderO2) "o2" "cancelled" =
      ⟨Except.error ErrKind.notAllowedForUser, some orderO2⟩ ∧
    serve "u1" false false (some orderO2) "o2" "cancelled" =
      ⟨Except.error ErrKind.forbidden, some orderO2⟩ ∧
    update_order_status_v1 (some "u1") false (some orderO2) "o2"
        "cancelled" 3 =
      ⟨Except.error ErrKind.permissionDenied, some orderO2⟩ :=
  C7_owner_late_cancel_fails orderO2
    "u1" "o2" 3 rfl (by decide) rfl (Or.inl rfl)

/-- Claim C2, counterexample: the edge function moves a pending order to
processing for an admin but leaves the unset processing_date unset — its
update statement writes only the status column, so no milestone
timestamp is ever recorded on that path. -/
theorem C2_endpoint_skips_milestones :
    serve "a1" true false
        (some ⟨"o1", "u1", "pending", none, none, none, 0⟩)
        "o1" "processing" =
      ⟨Except.ok (),
        some ⟨"o1", "u1", "processing", none, none, none, 0⟩⟩ := by
  decide

/-- Claim C2 as amended: in stored-procedure revision 1 and in the
crimson_salad procedure, an admin transition applies the requested
status and sets each milestone timestamp to the current time exactly
when the transition enters the corresponding status and the timestamp
is currently unset, leaving an already-set timestamp unchanged.  The
edge function (and revision 2) apply only the status. -/
theorem C2_admin_milestones_iff_unset (o : Order)
    (uid orderId s : String) (now : Nat)
    (hid : o.id = orderId) (hs : s ∈ validStatuses) :
    (∃ o₁,
      update_order_status_v1 (some uid) true (some o) orderId s now =
        ⟨Except.ok (), some o₁⟩ ∧
      o₁.status = s ∧
      o₁.processing_date = (if s = "processing" ∧ o.processing_date = none
        then some now else o.processing_date) ∧
      o₁.shipped_date = (if s = "shipped" ∧ o.shipped_date = none
        then some now else o.shipped_date) ∧
      o₁.delivered_date = (if s = "delivered" ∧ o.delivered_date = none
        then some now else o.delivered_date)) ∧
    (∃ o₂,
      update_order_status_crimson (some o) orderId s now =
        ⟨Except.ok (), some o₂⟩ ∧
      o₂.status = s ∧
      o₂.processing_date = (if s = "processing" ∧ o.processing_date = none
        then some now else o.processing_date) ∧
      o₂.shipped_date = (if s = "shipped" ∧ o.shipped_date = none
        then some now else o.shipped_date) ∧
      o₂.delivered_date = (if s = "delivered" ∧ o.delivered_date = none
        then some now else o.delivered_date)) := by
  constructor
  · exact ⟨v1_adminWrite o s now,
      by simp [update_order_status_v1, lookupOrder, hid, v1_decide,
        v1_apply],
      by simp [v1_adminWrite], by simp [v1_adminWrite],
      by simp [v1_adminWrite], by simp [v1_adminWrite]⟩
  · exact ⟨{ o with
        status := s
        updated_at := now
        processing_date := if s = "processing" ∧ o.processing_date = none
          then some now else o.processing_date
        shipped_date := if s = "shipped" ∧ o.shipped_date = none
          then some now else o.shipped_date
        delivered_date := if s = "delivered" ∧ o.delivered_date = none
          then some now else o.delivered_date },
      by simp [update_order_status_crimson, lookupOrder, hid, hs],
      rfl, rfl, rfl, rfl⟩

/-- Witness for the amended C2: driving an order whose processing_date is
already set back into processing leaves the timestamp unchanged, in both
procedures. -/
theorem C2_admin_milestones_iff_unset_witness :
    (∃ o₁,
      update_order_status_v1 (some "a1") true
          (some ⟨"o1", "u1", "shipped", some 5, some 6, none, 0⟩)
          "o1" "processing" 9 =
        ⟨Except.ok (), some o₁⟩ ∧
      o₁.status = "processing" ∧
      o₁.processing_date = (if "processing" = "processing" ∧
          (some 5 : Option Nat) = none then some 9 else some 5) ∧
      o₁.shipped_date = (if "processing" = "shipped" ∧
          (some 6 : Option Nat) = none then some 9 else some 6) ∧
      o₁.delivered_date = (if "processing" = "delivered" ∧
          (none : Option Nat) = none then some 9 else none)) ∧
    (∃ o₂,
      update_order_status_crimson
          (some ⟨"o1", "u1", "shipped", some 5, some 6, none, 0⟩)
          "o1" "processing" 9 =
        ⟨Except.ok (), some o₂⟩ ∧
      o₂.status = "processing" ∧
      o₂.processing_date = (if "processing" = "processing" ∧
          (some 5 : Option Nat) = none then some 9 else some 5) ∧
      o₂.shipped_date = (if "processing" = "shipped" ∧
          (some 6 : Option Nat) = none then some 9 else some 6) ∧
      o₂.delivered_date = (if "processing" = "delivered" ∧
          (none : Option Nat) = none then some 9 else none)) :=
  C2_admin_milestones_iff_unset
    ⟨"o1", "u1", "shipped", some 5, some 6, none, 0⟩
    "a1" "o1" "processing" 9 rfl (by decide)

/-- Claim C8, counterexample: the edge function performs no status
validation — an admin request with a status outside the closed
enumeration is written to the order and reported as a success. -/
theorem C8_endpoint_accepts_invalid_status :
    ("bogus" ∉ validStatuses) ∧
    serve "a1" true false
        (some ⟨"o1", "u1", "pending", none, none, none, 0⟩)
        "o1" "bogus" =
      ⟨Except.ok (),
        some ⟨"o1", "u1", "bogus", none, none, none, 0⟩⟩ := by
  decide

/-- Claim C8 as amended: the crimson_salad procedure rejects a status
outside the closed enumeration with InvalidStatus and performs no
write; the edge function performs no such validation and will write any
non-empty status string for an admin caller. -/
theorem C8_crimson_rejects_invalid_status (store : Option Order)
    (orderId ns : String) (now : Nat) (h : ns ∉ validStatuses) :
    update_order_status_crimson store orderId ns now =
      ⟨Except.error ErrKind.invalidStatus, store⟩ := by
  simp [update_order_status_crimson, h]

/-- Witness for the amended C8 at a concrete invalid status. -/
theorem C8_crimson_rejects_invalid_status_witness :
    update_order_status_crimson
        (some ⟨"o1", "u1", "pending", none, none, none, 0⟩)
        "o1" "bogus" 4 =
      ⟨Except.error ErrKind.invalidStatus,
        some ⟨"o1", "u1", "pending", none, none, none, 0⟩⟩ :=
  C8_crimson_rejects_invalid_status
    (some ⟨"o1", "u1", "pending", none, none, none, 0⟩) "o1" "bogus" 4
    (by decide)

/-- Claim C9, counterexample: a successful owner cancellation through the
edge function does not refresh updated_at — the update statement sends
only the status column, so updated_at keeps its former value 5. -/
theorem C9_endpoint_leaves_updated_at :
    serve "u1" false false
        (some ⟨"o1", "u1", "pending", none, none, none, 5⟩)
        "o1" "cancelled" =
      ⟨Except.ok (),
        some ⟨"o1", "u1", "cancelled", none, none, none, 5⟩⟩ := by
  decide

/-- Claim C9 as amended: a successful owner cancellation changes only
the status (and, in stored-procedure revision 1, updated_at): revision 1
sets status to cancelled and updated_at to the current time and leaves
every other field exactly as it was; the edge function changes the
status alone, leaving even updated_at untouched. -/
theorem C9_owner_cancel_frame (o : Order) (uid orderId : String)
    (now : Nat) (hid : o.id = orderId) (hoid : orderId ≠ "")
    (hown : o.user_id = uid)
    (hst : o.status = "pending" ∨ o.status = "processing") :
    update_order_status_v1 (some uid) false (some o) orderId "cancelled"
        now =
      ⟨Except.ok (),
        some { o with status := "cancelled", updated_at := now }⟩ ∧
    serve uid false false (some o) orderId "cancelled" =
      ⟨Except.ok (), some { o with status := "cancelled" }⟩ := by
  constructor
  · simp [update_order_status_v1, lookupOrder, hid, v1_decide, v1_apply,
      v1_cancelApply, hown, hst]
  · simp [serve, lookupOrder, hid, hoid, hown, hst]

/-- Concrete processing order with a set processing_date, used by the C9
witness. -/
def orderO1p : Order := ⟨"o1", "u1", "processing", some 2, none, none, 1⟩

/-- Witness for the amended C9 on a concrete processing order with a set
milestone date: it survives the cancellation untouched. -/
theorem C9_owner_cancel_frame_witness :
    update_order_status_v1 (some "u1") false (some orderO1p) "o1"
        "cancelled" 8 =
      ⟨Except.ok (),
        some { orderO1p with status := "cancelled", updated_at := 8 }⟩ ∧
    serve "u1" false false (some orderO1p) "o1" "cancelled" =
      ⟨Except.ok (), some { orderO1p with status := "cancelled" }⟩ :=
  C9_owner_cancel_frame orderO1p
    "u1" "o1" 8 rfl (by decide) rfl (Or.inr rfl)

/-- The pending order both racing cancellations start from. -/
def raceOrder : Order := ⟨"o1", "u1", "pending", none, none, none, 0⟩

/-- The decision each racing caller reaches from the shared snapshot of
`raceOrder`, under stored-procedure revision 2. -/
def raceDecision : Decision := v2_decide "u1" false raceOrder "cancelled"

/-- Result of the first racing conditional write under revision 2. -/
def raceFirst : Except ErrKind Unit × Order :=
  v2_apply raceOrder raceDecision

/-- Result of the second racing conditional write under revision 2,
against the row the first write left behind. -/
def raceSecond : Except ErrKind Unit × Order :=
  v2_apply raceFirst.2 raceDecision

/-- Claim C3, counterexample: two racing owner cancellations of the same
pending order under stored-procedure revision 2.  Both callers decide on
the same snapshot; the first conditional write cancels the order, the
second matches zero rows — yet both calls report success, because
revision 2 returns true without checking the affected row count.  So the
operation does report success on a zero-row conditional write, and the
two attempts yield two logical successes, not exactly one. -/
theorem C3_v2_double_cancel_both_succeed :
    raceDecision = Decision.cancelWrite ∧
    raceFirst.1 = Except.ok () ∧ raceSecond.1 = Except.ok () ∧
    raceFirst.2.status = "cancelled" ∧
    raceSecond.2.status = "cancelled" := by
  decide

/-- Claim C3 as amended: only stored-procedure revision 1 conditions its
cancel write on the status still being pending or processing AND checks
the affected row count, raising an error (not retrying) when zero rows
matched.  Under revision 1, two same-owner cancellations that decided on
the same pending-or-processing snapshot yield exactly one success — the
first write cancels the order, the second reports the cannot-cancel
error — and the order ends cancelled.  Revision 2 reports success even
for a zero-row conditional write, and the edge function's update carries
no status predicate at all; no implementation retries or reports a
ConcurrentModification error. -/
theorem C3_v1_double_cancel_one_success (o : Order) (uid : String)
    (n₁ n₂ : Nat) (hown : o.user_id = uid)
    (hst : o.status = "pending" ∨ o.status = "processing") :
    v1_decide uid false o "cancelled" = Decision.cancelWrite ∧
    (v1_apply o (v1_decide uid false o "cancelled") n₁).1 =
      Except.ok () ∧
    (v1_apply (v1_apply o (v1_decide uid false o "cancelled") n₁).2
        (v1_decide uid false o "cancelled") n₂).1 =
      Except.error ErrKind.cannotCancel ∧
    (v1_apply (v1_apply o (v1_decide uid false o "cancelled") n₁).2
        (v1_decide uid false o "cancelled") n₂).2.status =
      "cancelled" := by
  have hd : v1_decide uid false o "cancelled" = Decision.cancelWrite := by
    simp [v1_decide, hown, hst]
  refine ⟨hd, ?_, ?_, ?_⟩ <;>
    simp [hd, v1_apply, v1_cancelApply, hst]

/-- Witness for the amended C3 on a concrete pending order. -/
theorem C3_v1_double_cancel_one_success_witness :
    v1_decide "u1" false raceOrder "cancelled" = Decision.cancelWrite ∧
    (v1_apply raceOrder (v1_decide "u1" false raceOrder "cancelled")
        1).1 = Except.ok () ∧
    (v1_apply
        (v1_apply raceOrder (v1_decide "u1" false raceOrder "cancelled")
          1).2
        (v1_decide "u1" false raceOrder "cancelled") 2).1 =
      Except.error ErrKind.cannotCancel ∧
    (v1_apply
        (v1_apply raceOrder (v1_decide "u1" false raceOrder "cancelled")
          1).2
        (v1_decide "u1" false raceOrder "cancelled") 2).2.status =
      "cancelled" :=
  C3_v1_double_cancel_one_success raceOrder "u1" 1 2 rfl (Or.inl rfl)

/-- Claim C4: across any sequence of transition requests, through any of
the four implementations, a milestone timestamp that is set is never
overwritten — every set milestone date survives with its original
value. -/
theorem C4_milestones_never_overwritten (l : List Op) (o o' : Order)
    (h : execOps (some o) l = some o') : milestonesPreserved o o' := by
  induction l generalizing o with
  | nil =>
    simp only [execOps, List.foldl, Option.some.injEq] at h
    subst h
    exact milestonesPreserved_refl _
  | cons op rest ih =>
    rw [execOps_cons] at h
    cases hm : applyOp (some o) op with
    | none =>
      rw [hm, execOps_none] at h
      cases h
    | some o₁ =>
      rw [hm] at h
      exact milestonesPreserved_trans (applyOp_milestones op o o₁ hm)
        (ih o₁ h)

/-- Witness for C4: an order with processing_date already set is driven
by an admin to shipped and back into processing; the processing_date
keeps its original value 5 (and the newly set shipped_date its value
10). -/
theorem C4_milestones_never_overwritten_witness :
    milestonesPreserved
      ⟨"o1", "u1", "pending", some 5, none, none, 0⟩
      ⟨"o1", "u1", "processing", some 5, some 10, none, 20⟩ :=
  C4_milestones_never_overwritten
    [Op.v1 (some "a1") true "o1" "shipped" 10,
     Op.v1 (some "a1") true "o1" "processing" 20]
    ⟨"o1", "u1", "pending", some 5, none, none, 0⟩
    ⟨"o1", "u1", "processing", some 5, some 10, none, 20⟩
    (by decide)
